import Mathlib

/-!
Formal model of `src/components/SceneContainer.vue` (vocab_scene).

The component renders a three.js room and implements pick-and-select:
`onPointerMove` converts the event's pixel position to normalized device
coordinates using the container's current bounding rectangle and stores it
in the module-level `mouse`; `onClick` calls `getIntersects()`, which sets
the shared raycaster from `(mouse, camera)` and intersects all of
`scene.children`, keeping only intersections whose object's
`userData?.isInteractable` is truthy; the first (nearest) such intersection
commits its object's `userData` into `selectedObject`, a miss clears it.

Exact rational arithmetic (`ℚ`) stands in for JS doubles.  Ray-geometry
intersection is abstracted by an oracle `Hits` giving, for a ray determined
by a pointer sample and a camera, the nearest intersection distance with a
scene object (or `none`); three.js sorts the collected intersections by
ascending distance with the stable `Array.prototype.sort`, modelled by
`List.insertionSort` on `≤` over distances.
-/

namespace VocabScene

/-- Shape discriminator of an interactable template (`'box' | 'sphere'`). -/
inductive ShapeType where
  | box
  | sphere
deriving DecidableEq, Repr

/-- The `InteractableObject` interface: metadata template of one furniture
object (lines 6-14 of the source). -/
structure InteractableObject where
  id : String
  name : String
  translation : String
  type : ShapeType
  position : ℚ × ℚ × ℚ
  color : Nat
  scale : Option (ℚ × ℚ × ℚ)
deriving DecidableEq, Repr

/-- First entry of `objectsData` (line 129). -/
def tableTpl : InteractableObject :=
  ⟨"table", "Table", "机 (Tsukue)", .box, (0, 3/4, 0), 0x8B4513, some (2, 3/2, 3/2)⟩

/-- Second entry of `objectsData` (line 130). -/
def chairTpl : InteractableObject :=
  ⟨"chair", "Chair", "椅子 (Isu)", .box, (0, 1/2, 3/2), 0xA0522D, some (4/5, 1, 4/5)⟩

/-- Third entry of `objectsData` (line 131). -/
def lampTpl : InteractableObject :=
  ⟨"lamp", "Lamp", "ランプ (Ranpu)", .sphere, (6/5, 9/5, -1/5), 0xFFFFE0, some (3/10, 3/10, 3/10)⟩

/-- Fourth entry of `objectsData` (line 132). -/
def plantTpl : InteractableObject :=
  ⟨"plant", "Plant", "植物 (Shokubutsu)", .box, (-2, 1/2, -2), 0x228B22, some (1/2, 1, 1/2)⟩

/-- The static `objectsData` array (lines 128-133): the four interactable
templates with their exact literal field values. -/
def objectsData : List InteractableObject :=
  [tableTpl, chairTpl, lampTpl, plantTpl]

/-- The `userData` property of a scene object.  Every `Object3D` carries a
`userData` object: `.empty` models the default `{}` (on lights, floor and
walls); `.tagged tpl b` models the spread `{ ...obj, isInteractable: b }`
stored on a furniture mesh by `populateObjects` (line 156). -/
inductive UserData where
  | empty
  | tagged (tpl : InteractableObject) (isInteractable : Bool)
deriving DecidableEq, Repr

/-- JS truthiness of `userData?.isInteractable`: reading the property off the
default `{}` yields `undefined` (falsy); off a tagged record it yields the
stored boolean. -/
def isInteractableTruthy : UserData → Bool
  | .empty => false
  | .tagged _ b => b

/-- A member of `scene.children`: identified by a stable name (for reasoning
about which concrete object an intersection reports) plus its `userData`. -/
structure SceneObject where
  oid : String
  userData : UserData
deriving DecidableEq, Repr

/-- The ambient light added by `initScene` (line 47); default `userData`. -/
def ambientLightObj : SceneObject := ⟨"AmbientLight", .empty⟩

/-- The directional light added by `initScene` (line 50); default `userData`. -/
def directionalLightObj : SceneObject := ⟨"DirectionalLight", .empty⟩

/-- The floor mesh added by `createRoom` (lines 103-109); its `userData`
remains the default `{}`, so it is structural, never pickable. -/
def floorObj : SceneObject := ⟨"floor", .empty⟩

/-- The back wall mesh added by `createRoom` (lines 114-118). -/
def backWallObj : SceneObject := ⟨"backWall", .empty⟩

/-- The left wall mesh added by `createRoom` (lines 120-125). -/
def leftWallObj : SceneObject := ⟨"leftWall", .empty⟩

/-- `populateObjects` (lines 135-160) creates one mesh per template and sets
`mesh.userData = { ...obj, isInteractable: true }`. -/
def mkMesh (o : InteractableObject) : SceneObject := ⟨o.id, .tagged o true⟩

/-- `scene.children` after `initScene`: lights first (lines 47-53), then the
room geometry from `createRoom` (line 55), then the four furniture meshes
from `populateObjects` (line 56). -/
def sceneChildren : List SceneObject :=
  [ambientLightObj, directionalLightObj, floorObj, backWallObj, leftWallObj]
    ++ objectsData.map mkMesh

/-- A DOM bounding rectangle as returned by `getBoundingClientRect()`. -/
structure Rect where
  left : ℚ
  top : ℚ
  width : ℚ
  height : ℚ
deriving DecidableEq, Repr

/-- A pointer sample in normalized device coordinates (the `mouse` vector). -/
structure NDC where
  x : ℚ
  y : ℚ
deriving DecidableEq, Repr

/-- Line 68: `mouse.x = ((event.clientX - rect.left) / rect.width) * 2 - 1`. -/
def ndcX (clientX : ℚ) (rect : Rect) : ℚ :=
  ((clientX - rect.left) / rect.width) * 2 - 1

/-- Line 69: `mouse.y = -((event.clientY - rect.top) / rect.height) * 2 + 1`. -/
def ndcY (clientY : ℚ) (rect : Rect) : ℚ :=
  -((clientY - rect.top) / rect.height) * 2 + 1

/-- The pixel-to-NDC conversion performed by `onPointerMove` (lines 67-69)
from the event's pixel position and the container's current rectangle. -/
def toNDC (clientX clientY : ℚ) (rect : Rect) : NDC :=
  ⟨ndcX clientX rect, ndcY clientY rect⟩

/-- Camera state relevant to picking: the `PerspectiveCamera` construction
parameters (line 32) and position (line 33).  `updateProjectionMatrix`
(line 171) derives the projection from these fields, so the fields are the
projection state. -/
structure Camera where
  fov : ℚ
  aspect : ℚ
  near : ℚ
  far : ℚ
  position : ℚ × ℚ × ℚ
deriving DecidableEq, Repr

/-- The camera constructed by `initScene` (lines 32-33):
`new THREE.PerspectiveCamera(75, innerWidth / innerHeight, 0.1, 1000)` then
`camera.position.set(0, 2, 5)`. -/
def initialCamera (innerW innerH : ℚ) : Camera :=
  ⟨75, innerW / innerH, 1/10, 1000, (0, 2, 5)⟩

/-- The module-level `THREE.Raycaster` (line 61).  Its only state consumed by
this component is the ray installed by `setFromCamera`; `none` models the
default ray of a fresh raycaster that has not been aimed yet. -/
structure Raycaster where
  ray : Option (NDC × Camera)
deriving DecidableEq, Repr

/-- `raycaster.setFromCamera(mouse, camera)` (line 88): overwrites the
raycaster's ray entirely from the given pointer sample and camera. -/
def setFromCamera (_r : Raycaster) (m : NDC) (c : Camera) : Raycaster :=
  ⟨some (m, c)⟩

/-- One entry of the array returned by `intersectObjects`: the intersection
distance from the ray origin and the intersected object. -/
structure Intersection where
  distance : ℚ
  object : SceneObject
deriving DecidableEq, Repr

/-- Geometry oracle: for the ray determined by a pointer sample and a camera,
the distance of the nearest intersection with a scene object's geometry, or
`none` when the ray misses it.  This abstracts the exact ray-triangle and
ray-sphere tests performed inside three.js `Mesh.raycast`. -/
def Hits : Type := NDC → Camera → SceneObject → Option ℚ

/-- The nearest intersection of the ray with one object, as an
`Intersection` record. -/
def mkHit (hits : Hits) (m : NDC) (c : Camera) (o : SceneObject) : Option Intersection :=
  (hits m c o).map fun d => ⟨d, o⟩

/-- The ordering by which three.js sorts intersections:
`intersects.sort((a, b) => a.distance - b.distance)`, ascending distance. -/
def distLe (a b : Intersection) : Prop := a.distance ≤ b.distance

instance : DecidableRel distLe := fun a b =>
  inferInstanceAs (Decidable (a.distance ≤ b.distance))

instance : IsTotal Intersection distLe := ⟨fun a b => le_total a.distance b.distance⟩

instance : IsTrans Intersection distLe := ⟨fun _ _ _ h1 h2 => le_trans h1 h2⟩

/-- The stable ascending-distance sort applied by three.js to the collected
intersections (`Array.prototype.sort` is stable, matching insertion sort). -/
def sortByDistance (l : List Intersection) : List Intersection :=
  List.insertionSort distLe l

/-- `raycaster.intersectObjects(objects)` (line 90): invokes `raycast` on
every member of `objects` (returned as the first component — the objects that
underwent an intersection test), collects the resulting intersections and
sorts them by ascending distance.  With the default unaimed ray nothing is
reported (the component always aims the ray first, line 88). -/
def intersectObjects (hits : Hits) (r : Raycaster) (objs : List SceneObject) :
    List SceneObject × List Intersection :=
  match r.ray with
  | none => (objs, [])
  | some (m, c) => (objs, sortByDistance (objs.filterMap (mkHit hits m c)))

/-- `getIntersects` (lines 87-91), instrumented: aims the shared raycaster
from `(mouse, camera)`, intersects ALL of `scene.children`, and only then
filters the intersection list by `intersect.object.userData?.isInteractable`.
Returns the updated raycaster, the objects that were intersection-tested,
and the filtered intersection list. -/
def getIntersectsInstr (hits : Hits) (r : Raycaster) (m : NDC) (c : Camera)
    (children : List SceneObject) :
    Raycaster × List SceneObject × List Intersection :=
  let r2 := setFromCamera r m c
  let ti := intersectObjects hits r2 children
  (r2, ti.1, ti.2.filter fun i => isInteractableTruthy i.object.userData)

/-- `getIntersects` (lines 87-91) as the caller sees it: the updated raycaster
and the filtered, distance-sorted intersection list. -/
def getIntersects (hits : Hits) (r : Raycaster) (m : NDC) (c : Camera)
    (children : List SceneObject) : Raycaster × List Intersection :=
  let g := getIntersectsInstr hits r m c children
  (g.1, g.2.2)

/-- In JS, the `object` reference held in an intersection record is always a
truthy `Object3D`; the guard `intersect.object` (line 79) always passes. -/
def objectTruthy (_o : SceneObject) : Bool := true

/-- `Object3D.userData` defaults to `{}`, which is truthy, so the guard
`intersect.object.userData` (line 79) always passes as well. -/
def userDataTruthy (_u : UserData) : Bool := true

/-- The selection commit of `onClick` (lines 75-84): with at least one
filtered intersection, the first one's object's `userData` becomes the
selection (after the always-true truthiness guard); with none, the selection
is cleared to `null`. -/
def clickSelect (intersects : List Intersection) (prev : Option UserData) :
    Option UserData :=
  match intersects with
  | [] => none
  | i :: _ =>
      if objectTruthy i.object && userDataTruthy i.object.userData then
        some i.object.userData
      else prev

/-- The spec's words for comparison with `getIntersectsInstr` (spec §4.1 item
4: "achieved by filtering candidates before intersection testing, not
after"): restrict `children` to pickable candidates FIRST, and only then aim
the raycaster and intersection-test the restricted list. -/
def getIntersectsPreFiltered (hits : Hits) (r : Raycaster) (m : NDC) (c : Camera)
    (children : List SceneObject) :
    Raycaster × List SceneObject × List Intersection :=
  let r2 := setFromCamera r m c
  let cands := children.filter fun o => isInteractableTruthy o.userData
  let ti := intersectObjects hits r2 cands
  (r2, ti.1, ti.2)

/-- The unsorted list of pickable intersections of the ray with a candidate
list: per-object nearest hits, restricted to objects whose
`userData?.isInteractable` is truthy.  Reference point for the nearest-hit
and order-independence statements. -/
def pickableHits (hits : Hits) (m : NDC) (c : Camera) (objs : List SceneObject) :
    List Intersection :=
  (objs.filterMap (mkHit hits m c)).filter fun i => isInteractableTruthy i.object.userData

/-- The pick result: `intersects[0]` of the filtered, distance-sorted list
when nonempty (`onClick`, lines 76-77), `none` otherwise. -/
def pickFirst (hits : Hits) (r : Raycaster) (m : NDC) (c : Camera)
    (objs : List SceneObject) : Option Intersection :=
  (getIntersects hits r m c objs).2.head?

/-- A DOM event delivered to one of the window listeners (lines 177-179).
Move and click events carry the pointer's pixel position at the time of the
event together with the container's bounding rectangle at that moment; a
resize event carries the new `window.innerWidth` and `window.innerHeight`. -/
inductive DomEvent where
  | move (clientX clientY : ℚ) (rect : Rect)
  | click (clientX clientY : ℚ) (rect : Rect)
  | resize (w h : ℚ)
deriving DecidableEq, Repr

/-- The component's mutable module-level state: `camera` (line 19, `none`
until `initScene` assigns it), the shared `raycaster` and `mouse` (lines
61-62), the reactive `selectedObject` (line 63), the cursor affordance set by
`checkIntersection` (lines 93-100, `true` = pointer cursor), and
`scene.children`. -/
structure AppState where
  camera : Option Camera
  raycaster : Raycaster
  mouse : NDC
  selectedObject : Option UserData
  cursorPointer : Bool
  children : List SceneObject
deriving DecidableEq, Repr

/-- The state at the end of `onMounted` (lines 175-180): `initScene` has run
synchronously — camera constructed with the projection parameters of line 32,
room and furniture populated — BEFORE `addEventListener` installs any
handler, so every event the component ever processes starts from this state
or a successor of it.  `mouse` is the fresh `Vector2` `(0,0)`; `raycaster`
is fresh and unaimed; no selection. -/
def mountState (innerW innerH : ℚ) : AppState :=
  ⟨some (initialCamera innerW innerH), ⟨none⟩, ⟨0, 0⟩, none, false, sceneChildren⟩

/-- One event-handler invocation.  `none` models a crash: `onPointerMove` and
`onClick` both reach `raycaster.setFromCamera(mouse, camera)` (line 88),
which throws if `camera` is still `undefined`; `handleResize` instead guards
with `if (!camera || !renderer) return` (line 169).  The container ref is
always set once the component is mounted, so the `!container.value` guard of
`onPointerMove` (line 66) never fires in a mounted trace. -/
def stepEvent (hits : Hits) (s : AppState) : DomEvent → Option AppState
  | .move x y rect =>
      match s.camera with
      | none => none
      | some c =>
          let m := toNDC x y rect
          let g := getIntersects hits s.raycaster m c s.children
          some ⟨s.camera, g.1, m, s.selectedObject, g.2.length > 0, s.children⟩
  | .click _ _ _ =>
      match s.camera with
      | none => none
      | some c =>
          let g := getIntersects hits s.raycaster s.mouse c s.children
          some ⟨s.camera, g.1, s.mouse, clickSelect g.2 s.selectedObject,
                s.cursorPointer, s.children⟩
  | .resize w h =>
      match s.camera with
      | none => some s
      | some c =>
          some ⟨some ⟨c.fov, w / h, c.near, c.far, c.position⟩, s.raycaster,
                s.mouse, s.selectedObject, s.cursorPointer, s.children⟩

/-- A mounted session: `onMounted` completes, then the listed events are
handled strictly in arrival order on the single thread.  `none` as soon as a
handler crashes. -/
def run (hits : Hits) (innerW innerH : ℚ) (events : List DomEvent) :
    Option AppState :=
  events.foldl (fun os e => os.bind fun s => stepEvent hits s e)
    (some (mountState innerW innerH))

/-- Selection invariant: `selectedObject` is `null` or holds the tagged
`userData` of one of the four furniture templates. -/
def selInv (sel : Option UserData) : Prop :=
  sel = none ∨ ∃ t ∈ objectsData, sel = some (.tagged t true)

/-- States reachable in a mounted session: the camera is defined, the scene
holds exactly the mounted children, and the selection invariant holds. -/
def goodState (s : AppState) : Prop :=
  s.camera.isSome = true ∧ s.children = sceneChildren ∧ selInv s.selectedObject

/-! ### Demo inputs used by witnesses and counterexamples -/

/-- Demo geometry oracle: the ray hits only the table mesh, at distance 5. -/
def demoHitsTable : Hits := fun _ _ o => if o.oid = "table" then some 5 else none

/-- Demo geometry oracle: the ray hits the structural floor at distance 1
(nearer to the camera) and the table mesh behind it at distance 5. -/
def demoHitsFloorFirst : Hits := fun _ _ o =>
  if o.oid = "floor" then some 1 else if o.oid = "table" then some 5 else none

/-- Demo geometry oracle: the ray misses everything. -/
def demoHitsMiss : Hits := fun _ _ _ => none

/-- A camera with integer-valued parameters, convenient for evaluation. -/
def demoCam : Camera := ⟨75, 1, 1, 1000, (0, 2, 5)⟩

/-- A synthetic all-integer pickable template, convenient for evaluation. -/
def tplA : InteractableObject := ⟨"wa", "A", "a", .box, (0, 0, 0), 1, none⟩

/-- A second synthetic all-integer pickable template. -/
def tplB : InteractableObject := ⟨"wb", "B", "b", .box, (1, 0, 0), 2, none⟩

/-- Pickable mesh of `tplA`. -/
def objA : SceneObject := mkMesh tplA

/-- Pickable mesh of `tplB`. -/
def objB : SceneObject := mkMesh tplB

/-- Oracle: the ray hits `objA` at distance 1 and `objB` at distance 5. -/
def twoHitsDistinct : Hits := fun _ _ o =>
  if o.oid = "wa" then some 1 else if o.oid = "wb" then some 5 else none

/-- Oracle: the ray hits `objA` and `objB` both at distance 1 (a tie). -/
def twoHitsTied : Hits := fun _ _ o =>
  if o.oid = "wa" then some 1 else if o.oid = "wb" then some 1 else none

/-- Concrete state reached by clicking from the mounted state while the ray
hits the table mesh. -/
def demoClickState : AppState :=
  ⟨some (initialCamera 800 600),
   ⟨some (⟨0, 0⟩, initialCamera 800 600)⟩, ⟨0, 0⟩,
   some (UserData.tagged tableTpl true), false, sceneChildren⟩

/-- Final state of a concrete two-event session: a move, then a click that
selects the table. -/
def demoRunFinal : AppState :=
  ⟨some (initialCamera 800 600),
   ⟨some (toNDC 0 0 ⟨0, 0, 2, 2⟩, initialCamera 800 600)⟩,
   toNDC 0 0 ⟨0, 0, 2, 2⟩,
   some (UserData.tagged tableTpl true), true, sceneChildren⟩

/-- The state after a move at pixel (1,1) of the 2x2 rectangle while the ray
misses everything. -/
def demoMoveState : AppState :=
  ⟨some (initialCamera 800 600),
   ⟨some (toNDC 1 1 ⟨0, 0, 2, 2⟩, initialCamera 800 600)⟩,
   toNDC 1 1 ⟨0, 0, 2, 2⟩, none, false, sceneChildren⟩

/-- State after resizing the mounted session to a 400x300 window. -/
def demoResizeState : AppState :=
  ⟨some ⟨75, 400 / 300, 1 / 10, 1000, (0, 2, 5)⟩, ⟨none⟩, ⟨0, 0⟩, none, false,
   sceneChildren⟩

/-- State after a miss-move at pixel (3,3); a subsequent click leaves it
unchanged, so it also serves as the post-click state. -/
def missMoveState : AppState :=
  ⟨some (initialCamera 800 600),
   ⟨some (toNDC 3 3 ⟨0, 0, 2, 2⟩, initialCamera 800 600)⟩,
   toNDC 3 3 ⟨0, 0, 2, 2⟩, none, false, sceneChildren⟩

/-- The container rectangle used by the C1 counterexample. -/
def moveRect : Rect := ⟨0, 0, 2, 2⟩

/-- Oracle whose answer depends on the pointer sample: the ray hits the
table exactly when the sample's x-coordinate is -1 — true for the move
event's pixel (0,0), false for the click event's own pixel (1,1), whose
sample is (0,0) in normalized coordinates. -/
def cxHits : Hits := fun m _ o =>
  if m.x = -1 ∧ o.oid = "table" then some 3 else none

/-- State after the counterexample's move at pixel (0,0). -/
def cxS1 : AppState :=
  ⟨some (initialCamera 800 600),
   ⟨some ((⟨-1, 1⟩ : NDC), initialCamera 800 600)⟩, ⟨-1, 1⟩, none, true,
   sceneChildren⟩

/-- State after the counterexample's click at pixel (1,1). -/
def cxS2 : AppState :=
  ⟨some (initialCamera 800 600),
   ⟨some ((⟨-1, 1⟩ : NDC), initialCamera 800 600)⟩, ⟨-1, 1⟩,
   some (UserData.tagged tableTpl true), true, sceneChildren⟩

/-! ### Helper lemmas about the distance sort and the pick pipeline -/

lemma sortByDistance_perm (l : List Intersection) : (sortByDistance l).Perm l :=
  List.perm_insertionSort distLe l

lemma sortByDistance_sorted (l : List Intersection) :
    List.Sorted distLe (sortByDistance l) :=
  List.sorted_insertionSort distLe l

lemma sortByDistance_eq_nil {l : List Intersection}
    (h : sortByDistance l = []) : l = [] := by
  have hp := sortByDistance_perm l
  rw [h] at hp
  exact hp.symm.eq_nil

lemma sortByDistance_head_min {l t : List Intersection} {i : Intersection}
    (h : sortByDistance l = i :: t) :
    i ∈ l ∧ ∀ j ∈ l, i.distance ≤ j.distance := by
  have hp := sortByDistance_perm l
  have hs := sortByDistance_sorted l
  rw [h] at hp hs
  refine ⟨hp.mem_iff.mp (List.mem_cons_self i t), fun j hj => ?_⟩
  rcases List.mem_cons.mp (hp.symm.mem_iff.mp hj) with hji | hjt
  · exact le_of_eq (congrArg Intersection.distance hji.symm)
  · exact List.rel_of_sorted_cons hs j hjt

lemma orderedInsert_of_forall_le {a : Intersection} {l : List Intersection}
    (h : ∀ x ∈ l, distLe a x) : List.orderedInsert distLe a l = a :: l := by
  cases l with
  | nil => rfl
  | cons b t => exact List.orderedInsert_of_le distLe t (h b (List.mem_cons_self b t))

lemma filter_orderedInsert (p : Intersection → Bool) (a : Intersection) :
    ∀ l : List Intersection, List.Sorted distLe l →
      (List.orderedInsert distLe a l).filter p =
        if p a then List.orderedInsert distLe a (l.filter p) else l.filter p := by
  intro l
  induction l with
  | nil =>
      intro _
      simp only [List.orderedInsert_nil, List.filter_nil]
      by_cases hpa : p a <;> simp [hpa, List.filter_cons]
  | cons b t ih =>
      intro hsorted
      by_cases hab : distLe a b
      · rw [List.orderedInsert_of_le distLe t hab]
        have hle : ∀ x ∈ (b :: t).filter p, distLe a x := by
          intro x hx
          rcases List.mem_cons.mp (List.mem_of_mem_filter hx) with hxb | hxt
          · exact hxb ▸ hab
          · exact le_trans hab (List.rel_of_sorted_cons hsorted x hxt)
        by_cases hpa : p a
        · rw [orderedInsert_of_forall_le hle]
          simp [List.filter_cons, hpa]
        · simp [List.filter_cons, hpa]
      · have hins : List.orderedInsert distLe a (b :: t) =
            b :: List.orderedInsert distLe a t := by
          simp only [List.orderedInsert, if_neg hab]
        rw [hins]
        have iht := ih hsorted.of_cons
        by_cases hpa : p a <;> by_cases hpb : p b <;>
          simp [List.filter_cons, hpa, hpb, iht, List.orderedInsert, hab]

lemma filter_sortByDistance (p : Intersection → Bool) (l : List Intersection) :
    (sortByDistance l).filter p = sortByDistance (l.filter p) := by
  induction l with
  | nil => rfl
  | cons a t ih =>
      show (List.orderedInsert distLe a (sortByDistance t)).filter p = _
      rw [filter_orderedInsert p a (sortByDistance t) (sortByDistance_sorted t)]
      by_cases hpa : p a
      · rw [if_pos hpa, ih, List.filter_cons, if_pos hpa]
        rfl
      · rw [if_neg hpa, ih, List.filter_cons, if_neg hpa]

lemma filterMap_mkHit_filter (hits : Hits) (m : NDC) (c : Camera)
    (children : List SceneObject) :
    (children.filter fun o => isInteractableTruthy o.userData).filterMap
        (mkHit hits m c) =
      (children.filterMap (mkHit hits m c)).filter
        fun i => isInteractableTruthy i.object.userData := by
  induction children with
  | nil => rfl
  | cons o t ih =>
      by_cases ho : isInteractableTruthy o.userData <;>
        cases hh : hits m c o <;>
          simp [List.filter_cons, List.filterMap_cons, mkHit, hh, ho, ih]

lemma getIntersects_eq_sort_pickableHits (hits : Hits) (r : Raycaster) (m : NDC)
    (c : Camera) (objs : List SceneObject) :
    (getIntersects hits r m c objs).2 = sortByDistance (pickableHits hits m c objs) := by
  show (sortByDistance (objs.filterMap (mkHit hits m c))).filter _ = _
  rw [filter_sortByDistance, pickableHits]

lemma object_mem_of_mem_filterMap {hits : Hits} {m : NDC} {c : Camera}
    {objs : List SceneObject} {i : Intersection}
    (h : i ∈ objs.filterMap (mkHit hits m c)) : i.object ∈ objs := by
  rcases List.mem_filterMap.mp h with ⟨o, ho, hmk⟩
  rcases Option.map_eq_some'.mp hmk with ⟨d, _, hi⟩
  rw [← hi]
  exact ho

lemma mem_pickableHits {hits : Hits} {m : NDC} {c : Camera}
    {objs : List SceneObject} {i : Intersection}
    (h : i ∈ pickableHits hits m c objs) :
    i.object ∈ objs ∧ isInteractableTruthy i.object.userData = true := by
  simp only [pickableHits] at h
  have h2 := List.mem_filter.mp h
  exact ⟨object_mem_of_mem_filterMap h2.1, h2.2⟩

lemma pickableHits_perm {hits : Hits} {m : NDC} {c : Camera}
    {objs objs2 : List SceneObject} (h : objs.Perm objs2) :
    (pickableHits hits m c objs).Perm (pickableHits hits m c objs2) :=
  (h.filterMap (mkHit hits m c)).filter _

/-! ### Trace invariants -/

/-- A mesh produced by `populateObjects` carries its template tagged with
`isInteractable: true`. -/
lemma interactable_of_mem_map {o : SceneObject} {ts : List InteractableObject}
    (ho : o ∈ ts.map mkMesh) : ∃ t ∈ ts, o.userData = .tagged t true := by
  rcases List.mem_map.mp ho with ⟨t, ht, rfl⟩
  exact ⟨t, ht, rfl⟩

/-- Among the nine members of `scene.children`, a truthy
`userData?.isInteractable` identifies exactly the four furniture meshes, each
carrying its template tagged with `isInteractable: true`. -/
lemma sceneChildren_interactable :
    ∀ o ∈ sceneChildren, isInteractableTruthy o.userData = true →
      ∃ t ∈ objectsData, o.userData = .tagged t true := by
  intro o ho hi
  simp only [sceneChildren] at ho
  rcases List.mem_append.mp ho with hstruct | hmesh
  · fin_cases hstruct <;>
      simp_all [ambientLightObj, directionalLightObj, floorObj, backWallObj,
        leftWallObj, isInteractableTruthy]
  · exact interactable_of_mem_map hmesh

/-- Every intersection that survives `getIntersects`' filter over the mounted
scene reports a furniture mesh, so a click commit preserves `selInv`. -/
lemma clickSelect_inv {hits : Hits} {r : Raycaster} {m : NDC} {c : Camera}
    {prev : Option UserData} :
    selInv (clickSelect (getIntersects hits r m c sceneChildren).2 prev) := by
  rcases hg : (getIntersects hits r m c sceneChildren).2 with _ | ⟨i, rest⟩
  · exact Or.inl rfl
  · have hi : i ∈ (getIntersects hits r m c sceneChildren).2 := by
      rw [hg]; exact List.mem_cons_self i rest
    rw [getIntersects_eq_sort_pickableHits] at hi
    have hmem := mem_pickableHits ((sortByDistance_perm _).mem_iff.mp hi)
    obtain ⟨t, ht, hud⟩ := sceneChildren_interactable _ hmem.1 hmem.2
    exact Or.inr ⟨t, ht, by simp [clickSelect, objectTruthy, userDataTruthy, hud]⟩

lemma mountState_good (innerW innerH : ℚ) : goodState (mountState innerW innerH) :=
  ⟨rfl, rfl, Or.inl rfl⟩

/-- Every handler invocation from a good state succeeds (in particular, it
finds a defined camera at line 88) and yields a good state. -/
lemma stepEvent_good {hits : Hits} {s : AppState} (e : DomEvent)
    (hg : goodState s) : ∃ s2, stepEvent hits s e = some s2 ∧ goodState s2 := by
  obtain ⟨hcam, hch, hsel⟩ := hg
  rcases hc : s.camera with _ | c
  · rw [hc] at hcam; exact absurd hcam (by simp)
  cases e with
  | move x y rect =>
      simp only [stepEvent, hc]
      rw [hch]
      exact ⟨_, rfl, rfl, rfl, hsel⟩
  | click cx cy cr =>
      simp only [stepEvent, hc]
      rw [hch]
      exact ⟨_, rfl, rfl, rfl, clickSelect_inv⟩
  | resize w h =>
      simp only [stepEvent, hc]
      exact ⟨_, rfl, rfl, hch, hsel⟩

/-- Folding any event list from a good state never crashes and lands in a
good state. -/
lemma foldl_good (hits : Hits) :
    ∀ (events : List DomEvent) (s : AppState), goodState s →
      ∃ s2, events.foldl (fun os e => os.bind fun s3 => stepEvent hits s3 e)
          (some s) = some s2 ∧ goodState s2 := by
  intro events
  induction events with
  | nil => exact fun s hs => ⟨s, rfl, hs⟩
  | cons e rest ihr =>
      intro s hs
      obtain ⟨s2, hstep, hs2⟩ := stepEvent_good e hs
      obtain ⟨s3, hfold, hs3⟩ := ihr s2 hs2
      refine ⟨s3, ?_, hs3⟩
      rw [List.foldl_cons]
      show List.foldl _ (stepEvent hits s e) rest = some s3
      rw [hstep]
      exact hfold

/-- Every mounted session ends in a good state (and in particular never
crashes on an undefined camera). -/
lemma run_good (hits : Hits) (innerW innerH : ℚ) (events : List DomEvent) :
    ∃ s2, run hits innerW innerH events = some s2 ∧ goodState s2 :=
  foldl_good hits events (mountState innerW innerH) (mountState_good innerW innerH)

/-- A structural membership fact used when relating a surviving intersection
to the four furniture meshes. -/
lemma mem_meshes_of_interactable {o : SceneObject} (ho : o ∈ sceneChildren)
    (hi : isInteractableTruthy o.userData = true) : o ∈ objectsData.map mkMesh := by
  simp only [sceneChildren] at ho
  rcases List.mem_append.mp ho with hstruct | hmesh
  · fin_cases hstruct <;>
      simp_all [ambientLightObj, directionalLightObj, floorObj, backWallObj,
        leftWallObj, isInteractableTruthy]
  · exact hmesh

/-! ### Claim theorems -/

/-- Claim C7 (confirmed): two invocations of the pick computation with
identical pointer sample, camera and candidate sequence return identical
results, whatever the prior contents of the shared mutable raycaster:
`setFromCamera` overwrites the raycaster's ray entirely, so no hidden state
and no randomness can make the hover-path pick and the click-path pick
diverge on equal inputs. -/
theorem pick_no_hidden_state (hits : Hits) (r1 r2 : Raycaster) (m : NDC)
    (c : Camera) (objs : List SceneObject) :
    (getIntersects hits r1 m c objs).2 = (getIntersects hits r2 m c objs).2 ∧
    pickFirst hits r1 m c objs = pickFirst hits r2 m c objs :=
  ⟨rfl, rfl⟩

/-- Claim C2 (confirmed): for every prior selection state, a click whose pick
yields at least one pickable intersection commits the first (nearest) one's
object `userData` — also when that object is already selected (idempotent
re-select, never a toggle-off) — and a click whose pick yields no
intersection clears the selection, also when it was already empty. -/
theorem onClick_transitions (hits : Hits) (s : AppState) (c : Camera)
    (cx cy : ℚ) (cr : Rect) (s2 : AppState) (hc : s.camera = some c)
    (hstep : stepEvent hits s (.click cx cy cr) = some s2) :
    ((getIntersects hits s.raycaster s.mouse c s.children).2 = [] →
       s2.selectedObject = none) ∧
    ∀ i rest, (getIntersects hits s.raycaster s.mouse c s.children).2 = i :: rest →
      s2.selectedObject = some i.object.userData := by
  simp only [stepEvent, hc] at hstep
  have h2 := Option.some.inj hstep
  subst h2
  constructor
  · intro hnil
    show clickSelect (getIntersects hits s.raycaster s.mouse c s.children).2
      s.selectedObject = none
    rw [hnil]
    rfl
  · intro i rest hcons
    show clickSelect (getIntersects hits s.raycaster s.mouse c s.children).2
      s.selectedObject = some i.object.userData
    rw [hcons]
    simp [clickSelect, objectTruthy, userDataTruthy]

/-- Witness for C2: clicking the mounted state under `demoHitsTable` commits
the table template's tagged `userData`. -/
theorem onClick_transitions_witness :
    demoClickState.selectedObject = some (UserData.tagged tableTpl true) :=
  (onClick_transitions demoHitsTable (mountState 800 600) (initialCamera 800 600)
      0 0 ⟨0, 0, 2, 2⟩ demoClickState rfl rfl).2
    ⟨5, mkMesh tableTpl⟩ [] rfl

/-- Claim C4 (confirmed): whatever the geometry oracle reports — in
particular when a structural object is the nearest intersection along the
ray — a pick over the mounted scene only ever returns one of the four
furniture meshes; the floor and the two walls, whose `userData` is the
default `{}`, are never returned. -/
theorem pick_never_structural (hits : Hits) (r : Raycaster) (m : NDC)
    (c : Camera) (i : Intersection)
    (hp : pickFirst hits r m c sceneChildren = some i) :
    isInteractableTruthy i.object.userData = true ∧
    i.object ∈ objectsData.map mkMesh ∧
    i.object ≠ floorObj ∧ i.object ≠ backWallObj ∧ i.object ≠ leftWallObj := by
  rw [pickFirst, getIntersects_eq_sort_pickableHits] at hp
  rcases hs : sortByDistance (pickableHits hits m c sceneChildren) with _ | ⟨a, t⟩
  · rw [hs] at hp
    exact absurd hp (by simp)
  · rw [hs] at hp
    have hia : a = i := by simpa using hp
    subst hia
    have hmm : a ∈ sortByDistance (pickableHits hits m c sceneChildren) := by
      rw [hs]; exact List.mem_cons_self a t
    have hmem := mem_pickableHits ((sortByDistance_perm _).mem_iff.mp hmm)
    refine ⟨hmem.2, mem_meshes_of_interactable hmem.1 hmem.2, ?_, ?_, ?_⟩
    · intro heq
      have h2 := hmem.2
      rw [heq] at h2
      simp [floorObj, isInteractableTruthy] at h2
    · intro heq
      have h2 := hmem.2
      rw [heq] at h2
      simp [backWallObj, isInteractableTruthy] at h2
    · intro heq
      have h2 := hmem.2
      rw [heq] at h2
      simp [leftWallObj, isInteractableTruthy] at h2

/-- Witness for C4: with the floor nearest at distance 1 and the table behind
it at distance 5, the pick returns the table mesh, not the floor. -/
theorem pick_never_structural_witness :
    isInteractableTruthy (mkMesh tableTpl).userData = true ∧
    mkMesh tableTpl ∈ objectsData.map mkMesh ∧
    mkMesh tableTpl ≠ floorObj ∧ mkMesh tableTpl ≠ backWallObj ∧
    mkMesh tableTpl ≠ leftWallObj :=
  pick_never_structural demoHitsFloorFirst ⟨none⟩ ⟨0, 0⟩ demoCam
    ⟨5, mkMesh tableTpl⟩ rfl

/-- Claim C5 (amended): the implementation intersection-tests EVERY member of
`scene.children` — structural geometry included — and filters by
pickability only afterwards; the resulting intersection list nevertheless
equals that of the spec's pre-filtered computation, which intersects only
the pickable candidates. -/
theorem getIntersects_filters_after_yet_refines (hits : Hits) (r : Raycaster)
    (m : NDC) (c : Camera) (children : List SceneObject) :
    (getIntersectsInstr hits r m c children).2.1 = children ∧
    (getIntersectsInstr hits r m c children).2.2 =
      (getIntersectsPreFiltered hits r m c children).2.2 := by
  constructor
  · rfl
  · show (sortByDistance (children.filterMap (mkHit hits m c))).filter
        (fun i => isInteractableTruthy i.object.userData) =
      sortByDistance ((children.filter fun o => isInteractableTruthy o.userData).filterMap
        (mkHit hits m c))
    rw [filter_sortByDistance, filterMap_mkHit_filter]

/-- Counterexample to C5 as stated: the non-pickable floor IS among the
objects on which `intersectObjects` performs an intersection test, so the
candidate set is not restricted to pickable entities before ray testing. -/
theorem structural_geometry_is_intersection_tested :
    floorObj ∈ (getIntersectsInstr demoHitsTable ⟨none⟩ ⟨0, 0⟩ demoCam
        sceneChildren).2.1 ∧
    isInteractableTruthy floorObj.userData = false := by
  constructor
  · show floorObj ∈ sceneChildren
    simp [sceneChildren]
  · rfl

/-- Claim C3 (amended): a pick always returns a pickable intersection of
minimal ray-origin distance; and provided the minimal distance is attained
by exactly one pickable intersection, the result is the same for every
ordering of the candidate sequence (and for any prior raycaster state).
When two pickable hits are exactly equidistant, the stable distance sort
keeps insertion order and the result does depend on the ordering. -/
theorem pick_nearest_and_order_independent (hits : Hits) (r r2 : Raycaster)
    (m : NDC) (c : Camera) (objs objs2 : List SceneObject)
    (hperm : objs.Perm objs2) :
    (∀ i, pickFirst hits r m c objs = some i →
       i ∈ pickableHits hits m c objs ∧
       ∀ j ∈ pickableHits hits m c objs, i.distance ≤ j.distance) ∧
    ((∀ j ∈ pickableHits hits m c objs, ∀ k ∈ pickableHits hits m c objs,
        (∀ x ∈ pickableHits hits m c objs, j.distance ≤ x.distance) →
        (∀ x ∈ pickableHits hits m c objs, k.distance ≤ x.distance) → j = k) →
      pickFirst hits r m c objs = pickFirst hits r2 m c objs2) := by
  constructor
  · intro i hp
    rw [pickFirst, getIntersects_eq_sort_pickableHits] at hp
    rcases hs : sortByDistance (pickableHits hits m c objs) with _ | ⟨a, t⟩
    · rw [hs] at hp
      exact absurd hp (by simp)
    · rw [hs] at hp
      have hia : a = i := by simpa using hp
      subst hia
      exact sortByDistance_head_min hs
  · intro huniq
    have hpp : (pickableHits hits m c objs).Perm (pickableHits hits m c objs2) :=
      pickableHits_perm hperm
    rw [pickFirst, pickFirst, getIntersects_eq_sort_pickableHits,
      getIntersects_eq_sort_pickableHits]
    rcases hs1 : sortByDistance (pickableHits hits m c objs) with _ | ⟨i1, t1⟩ <;>
      rcases hs2 : sortByDistance (pickableHits hits m c objs2) with _ | ⟨i2, t2⟩
    · rfl
    · have h1 := sortByDistance_eq_nil hs1
      have h2 : pickableHits hits m c objs2 = [] := by
        have hcopy := hpp
        rw [h1] at hcopy
        exact hcopy.symm.eq_nil
      rw [h2] at hs2
      simp [sortByDistance] at hs2
    · have h2 := sortByDistance_eq_nil hs2
      have h1 : pickableHits hits m c objs = [] := by
        have hcopy := hpp
        rw [h2] at hcopy
        exact hcopy.eq_nil
      rw [h1] at hs1
      simp [sortByDistance] at hs1
    · have hm1 := sortByDistance_head_min hs1
      have hm2 := sortByDistance_head_min hs2
      have hi2mem : i2 ∈ pickableHits hits m c objs := hpp.mem_iff.mpr hm2.1
      have hi2min : ∀ x ∈ pickableHits hits m c objs, i2.distance ≤ x.distance :=
        fun x hx => hm2.2 x (hpp.mem_iff.mp hx)
      have h12 : i1 = i2 := huniq i1 hm1.1 i2 hi2mem hm1.2 hi2min
      simp [h12]

/-- Witness for C3: with distinct distances 1 and 5, reordering the two
candidates (and changing the prior raycaster state) does not change the
pick. -/
theorem pick_order_independent_witness :
    pickFirst twoHitsDistinct ⟨none⟩ ⟨0, 0⟩ demoCam [objA, objB] =
      pickFirst twoHitsDistinct ⟨some (⟨1, 1⟩, demoCam)⟩ ⟨0, 0⟩ demoCam
        [objB, objA] :=
  (pick_nearest_and_order_independent twoHitsDistinct ⟨none⟩
      ⟨some (⟨1, 1⟩, demoCam)⟩ ⟨0, 0⟩ demoCam [objA, objB] [objB, objA]
      (List.Perm.swap objB objA [])).2 (by decide)

/-- Counterexample to C3 as stated: two pickable objects tied at distance 1
are both intersected by the ray, yet reordering the candidate sequence
changes which of them the pick returns — the result is not the same for
every ordering. -/
theorem pick_order_dependent_under_ties :
    (pickableHits twoHitsTied ⟨0, 0⟩ demoCam [objA, objB]).length = 2 ∧
    List.Perm [objA, objB] [objB, objA] ∧
    pickFirst twoHitsTied ⟨none⟩ ⟨0, 0⟩ demoCam [objA, objB] = some ⟨1, objA⟩ ∧
    pickFirst twoHitsTied ⟨none⟩ ⟨0, 0⟩ demoCam [objB, objA] = some ⟨1, objB⟩ ∧
    objA ≠ objB :=
  ⟨by decide, List.Perm.swap objB objA [], by decide, by decide, by decide⟩

/-- Claim C9 (confirmed): `onMounted` runs `initScene` synchronously —
constructing the camera together with its projection parameters — strictly
before any event listener is installed, so every pointer-move, click or
resize handled in a mounted session finds a defined camera: no pick is ever
performed against an undefined projection, and `run` never crashes. -/
theorem pick_camera_always_defined (hits : Hits) (innerW innerH : ℚ)
    (events : List DomEvent) :
    (run hits innerW innerH events).isSome = true := by
  obtain ⟨s2, hrun, _⟩ := run_good hits innerW innerH events
  rw [hrun]
  rfl

/-- Claim C10 (confirmed): in every reachable state of a mounted session the
selection is empty or holds exactly the tagged per-mesh metadata — template
fields plus `isInteractable: true` — of one of the four statically defined
furniture objects; it never holds floor or wall data. -/
theorem selection_invariant (hits : Hits) (innerW innerH : ℚ)
    (events : List DomEvent) (s : AppState)
    (hrun : run hits innerW innerH events = some s) :
    s.selectedObject = none ∨
      ∃ t ∈ objectsData, s.selectedObject = some (UserData.tagged t true) := by
  obtain ⟨s2, hrun2, hgood⟩ := run_good hits innerW innerH events
  rw [hrun] at hrun2
  have hss : s = s2 := Option.some.inj hrun2
  rw [hss]
  exact hgood.2.2

/-- Witness for C10: the concrete session ends with the table template's
tagged data selected, satisfying the invariant. -/
theorem selection_invariant_witness :
    demoRunFinal.selectedObject = none ∨
      ∃ t ∈ objectsData, demoRunFinal.selectedObject = some (UserData.tagged t true) :=
  selection_invariant demoHitsTable 800 600
    [.move 0 0 ⟨0, 0, 2, 2⟩, .click 0 0 ⟨0, 0, 2, 2⟩] demoRunFinal rfl

/-- Claim C8 (confirmed): a pointer-move event whose pixel position lies
inside the surface's current bounding rectangle stores a pointer sample with
both normalized coordinates in [-1, 1], and that sample is computed from the
rectangle carried by this very event — queried at event time via
`getBoundingClientRect()` — never from a cached rectangle. -/
theorem pointer_sample_in_range_from_current_rect (hits : Hits) (s : AppState)
    (c : Camera) (x y : ℚ) (r : Rect) (s1 : AppState)
    (hc : s.camera = some c)
    (hw : 0 < r.width) (hh : 0 < r.height)
    (hx1 : r.left ≤ x) (hx2 : x ≤ r.left + r.width)
    (hy1 : r.top ≤ y) (hy2 : y ≤ r.top + r.height)
    (hstep : stepEvent hits s (.move x y r) = some s1) :
    s1.mouse = toNDC x y r ∧
    -1 ≤ s1.mouse.x ∧ s1.mouse.x ≤ 1 ∧ -1 ≤ s1.mouse.y ∧ s1.mouse.y ≤ 1 := by
  simp only [stepEvent, hc] at hstep
  have h1 := Option.some.inj hstep
  have hm : s1.mouse = toNDC x y r := (congrArg AppState.mouse h1).symm
  have hqx0 : 0 ≤ (x - r.left) / r.width := div_nonneg (by linarith) hw.le
  have hqx1 : (x - r.left) / r.width ≤ 1 := (div_le_one hw).mpr (by linarith)
  have hqy0 : 0 ≤ (y - r.top) / r.height := div_nonneg (by linarith) hh.le
  have hqy1 : (y - r.top) / r.height ≤ 1 := (div_le_one hh).mpr (by linarith)
  refine ⟨hm, ?_, ?_, ?_, ?_⟩ <;> rw [hm] <;> simp only [toNDC, ndcX, ndcY] <;>
    linarith

/-- Arithmetic bound used by the C8 witness. -/
lemma demoRectBound : (1 : ℚ) ≤ 0 + 2 := by norm_num

/-- Witness for C8 at pixel (1,1) inside the rectangle `(0,0,2,2)`. -/
theorem pointer_sample_witness :
    demoMoveState.mouse = toNDC 1 1 ⟨0, 0, 2, 2⟩ ∧
    -1 ≤ demoMoveState.mouse.x ∧ demoMoveState.mouse.x ≤ 1 ∧
    -1 ≤ demoMoveState.mouse.y ∧ demoMoveState.mouse.y ≤ 1 :=
  pointer_sample_in_range_from_current_rect demoHitsMiss (mountState 800 600)
    (initialCamera 800 600) 1 1 ⟨0, 0, 2, 2⟩ demoMoveState rfl (by decide)
    (by decide) (by decide) demoRectBound (by decide) demoRectBound rfl

/-- Claim C6 (amended): for a fixed pixel, the normalized coordinates
computed from two rectangles agree exactly when the pixel's relative
position within the rectangle is unchanged on both axes; the aspect ratio
does not enter the conversion at all — a resize event leaves the stored
pointer sample untouched — and a changed rectangle therefore need not
change the coordinates. -/
theorem ndc_change_characterization :
    (∀ (x y : ℚ) (r1 r2 : Rect),
       toNDC x y r1 = toNDC x y r2 ↔
         (x - r1.left) / r1.width = (x - r2.left) / r2.width ∧
         (y - r1.top) / r1.height = (y - r2.top) / r2.height) ∧
    ∀ (hits : Hits) (s : AppState) (w h : ℚ) (s2 : AppState),
      stepEvent hits s (.resize w h) = some s2 → s2.mouse = s.mouse := by
  constructor
  · intro x y r1 r2
    constructor
    · intro he
      have hx := congrArg NDC.x he
      have hy := congrArg NDC.y he
      simp only [toNDC, ndcX, ndcY] at hx hy
      exact ⟨by linarith, by linarith⟩
    · intro hq
      simp only [toNDC, ndcX, ndcY]
      rw [hq.1, hq.2]
  · intro hits s w h s2 hstep
    rcases hc : s.camera with _ | c
    · simp only [stepEvent, hc] at hstep
      exact (congrArg AppState.mouse (Option.some.inj hstep)).symm
    · simp only [stepEvent, hc] at hstep
      exact (congrArg AppState.mouse (Option.some.inj hstep)).symm

/-- Relative-position equality used by the C6 witness. -/
lemma demoRelEq : ((0 : ℚ) - 0) / 100 = ((0 : ℚ) - 0) / 200 := by norm_num

/-- Witness for C6: pixel (0,0) keeps its normalized coordinates across the
rectangle change 100x100 to 200x200, and a resize leaves the stored sample
unchanged. -/
theorem ndc_resize_witness :
    toNDC 0 0 ⟨0, 0, 100, 100⟩ = toNDC 0 0 ⟨0, 0, 200, 200⟩ ∧
    demoResizeState.mouse = (mountState 800 600).mouse :=
  ⟨(ndc_change_characterization.1 0 0 ⟨0, 0, 100, 100⟩ ⟨0, 0, 200, 200⟩).mpr
      ⟨demoRelEq, demoRelEq⟩,
   ndc_change_characterization.2 demoHitsMiss (mountState 800 600) 400 300
     demoResizeState rfl⟩

/-- Counterexample to C6 as stated: doubling the viewport changes the surface
rectangle from 100x100 to 200x200, yet the normalized coordinates of the
fixed pixel (0,0) are identical before and after the resize — they do not
differ whenever the rectangle changed. -/
theorem ndc_unchanged_despite_rect_change :
    (⟨0, 0, 100, 100⟩ : Rect) ≠ ⟨0, 0, 200, 200⟩ ∧
    toNDC 0 0 ⟨0, 0, 100, 100⟩ = toNDC 0 0 ⟨0, 0, 200, 200⟩ := by
  constructor
  · intro h
    exact absurd (congrArg Rect.width h) (by decide)
  · norm_num [toNDC, ndcX, ndcY, NDC.mk.injEq]

/-- Claim C1 (amended): `onClick` takes no pointer argument and picks with
the `mouse` sample stored by the most recent pointer-move: its result is
identical for any two click events whatever their own pointer payloads, and
after a move at pixel (x, y) with rectangle r, a subsequent click commits
the pick computed at `toNDC x y r` — the sample of the earlier move event,
not one derived from the click event itself. -/
theorem onClick_uses_last_move_sample (hits : Hits) (s : AppState) (c : Camera)
    (x y : ℚ) (r : Rect) (cx cy cx2 cy2 : ℚ) (cr cr2 : Rect)
    (hc : s.camera = some c) :
    stepEvent hits s (.click cx cy cr) = stepEvent hits s (.click cx2 cy2 cr2) ∧
    ∀ s1, stepEvent hits s (.move x y r) = some s1 →
      s1.mouse = toNDC x y r ∧
      ∀ s2, stepEvent hits s1 (.click cx cy cr) = some s2 →
        s2.selectedObject =
          clickSelect (getIntersects hits s1.raycaster (toNDC x y r) c
            s1.children).2 s1.selectedObject := by
  refine ⟨rfl, ?_⟩
  intro s1 hstep1
  simp only [stepEvent, hc] at hstep1
  have h1 := Option.some.inj hstep1
  have hm : s1.mouse = toNDC x y r := (congrArg AppState.mouse h1).symm
  refine ⟨hm, ?_⟩
  intro s2 hstep2
  have hc1 : s1.camera = some c := (congrArg AppState.camera h1).symm
  simp only [stepEvent, hc1] at hstep2
  have h2 := Option.some.inj hstep2
  rw [← h2]
  show clickSelect (getIntersects hits s1.raycaster s1.mouse c s1.children).2
      s1.selectedObject = _
  rw [hm]

/-- Witness for C1: two clicks with different pointer payloads behave
identically, and the committed selection is the pick at the preceding move
event's sample. -/
theorem onClick_uses_last_move_sample_witness :
    stepEvent demoHitsMiss (mountState 800 600) (.click 5 5 ⟨0, 0, 2, 2⟩) =
      stepEvent demoHitsMiss (mountState 800 600) (.click 7 9 ⟨1, 1, 4, 4⟩) ∧
    missMoveState.mouse = toNDC 3 3 ⟨0, 0, 2, 2⟩ ∧
    missMoveState.selectedObject =
      clickSelect (getIntersects demoHitsMiss missMoveState.raycaster
        (toNDC 3 3 ⟨0, 0, 2, 2⟩) (initialCamera 800 600)
        missMoveState.children).2 missMoveState.selectedObject :=
  have h := onClick_uses_last_move_sample demoHitsMiss (mountState 800 600)
    (initialCamera 800 600) 3 3 ⟨0, 0, 2, 2⟩ 5 5 7 9 ⟨0, 0, 2, 2⟩ ⟨1, 1, 4, 4⟩ rfl
  ⟨h.1, (h.2 missMoveState rfl).1, (h.2 missMoveState rfl).2 missMoveState rfl⟩

/-- Counterexample to C1 as stated: after a move at pixel (0,0), a click at
pixel (1,1) commits the table — the pick at the stale move sample — even
though the pick at the click event's own pointer sample hits nothing.  The
pick performed by `onClick` therefore uses the sample of an earlier event,
not that of the triggering click. -/
theorem click_pick_not_from_click_sample :
    stepEvent cxHits (mountState 800 600) (.move 0 0 moveRect) = some cxS1 ∧
    stepEvent cxHits cxS1 (.click 1 1 moveRect) = some cxS2 ∧
    cxS2.selectedObject = some (UserData.tagged tableTpl true) ∧
    pickFirst cxHits cxS1.raycaster (toNDC 1 1 moveRect)
      (initialCamera 800 600) cxS1.children = none := by
  have hTo0 : toNDC 0 0 moveRect = ⟨-1, 1⟩ := by
    simp only [toNDC, ndcX, ndcY, moveRect]
    norm_num
  have hTo1 : toNDC 1 1 moveRect = ⟨0, 0⟩ := by
    simp only [toNDC, ndcX, ndcY, moveRect]
    norm_num
  refine ⟨?_, ?_, rfl, ?_⟩
  · simp only [stepEvent, mountState]
    rw [hTo0]
    rfl
  · rfl
  · rw [hTo1]
    rfl

end VocabScene
